import Mathlib

/-!
# Verification of the maya-capture playblast wrapper

Shallow embedding of `capture/core.py` and `capture/options.py`.

Modelling conventions, stated once here:

* Python numbers are modelled as `ℚ` (Maya attribute and time values are
  scalars; no floating-point rounding is relevant to any claim).
* The Maya host (`maya.cmds`) is modelled as an explicit `Host` record plus an
  event trace.  Read-only queries (`objExists`, `getAttr`, `playbackOptions`,
  `currentTime`, `modelEditor -query`, `displayRGBColor -query`,
  `displayPref -query`) are pure reads of the record; state-changing calls,
  resource acquisition/release, `sys.stderr.write` and the `playblast`
  invocation itself are recorded as `Event`s in source order.
* Host calls made by this module on a well-formed scene succeed; the
  failures that occur are the ones the module itself raises.
* Python exceptions are `Except PyErr`; `try/except RuntimeError` and
  `try/finally` are modelled by matching on the error value, with Python's
  rule that an exception raised inside a `finally` block replaces the
  in-flight exception.
* `_inject` (core.py lines 260-267), which mediates every `current`/`set`
  call of the option machinery, evaluates `inspect.getargspec(fn).kwargs`
  while building its keyword dictionary — but the `ArgSpec` namedtuple has
  fields `args`, `varargs`, `keywords` and `defaults`, no `kwargs` — so
  every `_inject` call raises `AttributeError` before invoking its target.
  The model embeds this (`injectError`): the option classes' `current`/`set`
  bodies and `_parse_options` are never reached at runtime.
* Field and definition names follow the source; `maintain_aspect` abbreviates
  the source keyword `maintain_aspect_ratio` and `deviceAspect` the scene
  attribute `defaultResolution.deviceAspectRatio`.
-/

namespace MayaCapture

/-- A Python exception value, restricted to the types this module can raise:
`RuntimeError` (raised by the code and by the host), `AttributeError`
(attribute access on an object lacking it, e.g. `None.set`), and `TypeError`
(raised by `snap` for non-scalar frames). -/
inductive PyErr where
  | runtimeError (msg : String)
  | attributeError (msg : String)
  | typeError (msg : String)
deriving DecidableEq, Repr

/-- The value passed as the `frame` argument: a scalar number or a
tuple/list of numbers (source: `frame (float or tuple, optional)`). -/
inductive PyVal where
  | num (q : ℚ)
  | tup (l : List ℚ)
deriving DecidableEq, Repr

/-- Python truthiness of a `frame` value: `0` and the empty tuple are falsy. -/
def PyVal.truthy : PyVal → Bool
  | .num q => q != 0
  | .tup l => !l.isEmpty

/-- `options.ViewportOptions`: the viewport option fields with their class
defaults (options.py lines 16-45). -/
structure ViewportOptions where
  useDefaultMaterial : Bool := false
  wireframeOnShaded : Bool := false
  displayAppearance : String := "smoothShaded"
  nurbsCurves : Bool := false
  nurbsSurfaces : Bool := false
  polymeshes : Bool := true
  subdivSurfaces : Bool := false
  cameras : Bool := false
  lights : Bool := false
  grid : Bool := false
  joints : Bool := false
  ikHandles : Bool := false
  deformers : Bool := false
  dynamics : Bool := false
  fluids : Bool := false
  hairSystems : Bool := false
  follicles : Bool := false
  nCloths : Bool := false
  nParticles : Bool := false
  nRigids : Bool := false
  dynamicConstraints : Bool := false
  locators : Bool := false
  manipulators : Bool := false
  dimensions : Bool := false
  handles : Bool := false
  pivots : Bool := false
  textures : Bool := false
  strokes : Bool := false
deriving DecidableEq, Repr

/-- `options.CameraOptions`: per-camera display attributes with their class
defaults (options.py lines 91-93). -/
structure CameraOptions where
  displayGateMask : Bool := false
  displayResolution : Bool := false
  displayFilmGate : Bool := false
deriving DecidableEq, Repr

/-- `0.631` as an explicitly reduced rational (kernel-computable). -/
def q631 : ℚ := ⟨631, 1000, by decide, by decide⟩

/-- `0.535` as an explicitly reduced rational. -/
def q535 : ℚ := ⟨107, 200, by decide, by decide⟩

/-- `0.617` as an explicitly reduced rational. -/
def q617 : ℚ := ⟨617, 1000, by decide, by decide⟩

/-- `0.702` as an explicitly reduced rational. -/
def q702 : ℚ := ⟨351, 500, by decide, by decide⟩

/-- `0.052` as an explicitly reduced rational. -/
def q052 : ℚ := ⟨13, 250, by decide, by decide⟩

/-- `options.DisplayOptions`: global display colors and prefs with their
class defaults (options.py lines 131-137). -/
structure DisplayOptions where
  displayGradient : Bool := true
  background : ℚ × ℚ × ℚ := (q631, q631, q631)
  backgroundTop : ℚ × ℚ × ℚ := (q535, q617, q702)
  backgroundBottom : ℚ × ℚ × ℚ := (q052, q052, q052)
deriving DecidableEq, Repr

/-- The host's global display state touched by `DisplayOptions.set`
(`displayRGBColor` colors and the `displayGradient` pref). -/
structure DisplayState where
  background : ℚ × ℚ × ℚ
  backgroundTop : ℚ × ℚ × ℚ
  backgroundBottom : ℚ × ℚ × ℚ
  displayGradient : Bool
deriving DecidableEq, Repr

/-- The Maya host session state read and mutated by this module. -/
structure Host where
  existingObjects : List String := []
  defaultResolutionWidth : ℚ := 1920
  defaultResolutionHeight : ℚ := 1080
  /-- Scene attribute `defaultResolution.deviceAspectRatio`. -/
  deviceAspect : ℚ := 1
  playbackMin : ℚ := 1
  playbackMax : ℚ := 24
  currentTime : ℚ := 1
  display : DisplayState := { background := (q631, q631, q631),
                              backgroundTop := (q535, q617, q702),
                              backgroundBottom := (q052, q052, q052),
                              displayGradient := true }
  /-- Attribute store of the scene's cameras (association list). -/
  cameras : List (String × CameraOptions) := []
  /-- The transient capture panel's modelEditor flags; `some` while the
  panel exists, `none` otherwise. -/
  panelFlags : Option ViewportOptions := none
  panelIsolate : Bool := false
  panelIsolateMembers : List String := []
  /-- The modelEditor flags a freshly created panel reports. -/
  freshPanelFlags : ViewportOptions := {}
  /-- The path the host's `playblast` primitive returns for this call. -/
  playblastReturn : String := ""
deriving DecidableEq, Repr

/-- The exact keyword set `capture` passes to `cmds.playblast`
(core.py lines 133-146). -/
structure PlayblastCall where
  compression : String
  format : String
  percent : ℕ := 100
  quality : ℕ := 100
  viewer : Bool
  startTime : ℚ
  endTime : ℚ
  offScreen : Bool
  forceOverwrite : Bool
  filename : Option String
  widthHeight : ℚ × ℚ
  rawFrameNumbers : Bool
  /-- The `frame` kwarg, present only when the argument was truthy
  (core.py lines 118-119). -/
  frameArg : Option PyVal
  /-- The `completeFilename` kwarg, present only when truthy
  (core.py lines 116-117). -/
  completeFilename : Option String
deriving DecidableEq, Repr

/-- One observable host effect, in source order. -/
inductive Event where
  | windowCreate (width height : ℚ)
  | panelCreate
  | showWindow
  | lookThru (panel camera : String)
  | setFocus (panel : String)
  /-- `modelEditor -edit -allObjects 0 -grid 0 -manipulators 0`. -/
  | editorReset (panel : String)
  /-- `modelEditor -edit` with every option field of `o`. -/
  | editorApply (panel : String) (o : ViewportOptions)
  | displayColorSet (name : String) (v : ℚ × ℚ × ℚ)
  | displayPrefSet (name : String) (b : Bool)
  | setAttr (obj attr : String) (b : Bool)
  | isolateState (panel : String) (b : Bool)
  | isolateAdd (panel : String) (obj : String)
  | playblast (c : PlayblastCall)
  | stderr (s : String)
  | clipboardCopy (path : String)
  | panelDelete (panel : String)
  | windowDelete
deriving DecidableEq, Repr

/-- Python `x or default` for an optional number: `None`, and the falsy
value `0`, both yield the default (core.py lines 89-96). -/
def pyOrQ (x : Option ℚ) (d : ℚ) : ℚ :=
  match x with
  | some v => if v = 0 then d else v
  | none => d

/-- Python `x or default` for an optional string: `None` and the falsy
empty string both yield the default (core.py line 83). -/
def pyOrS (x : Option String) (d : String) : String :=
  match x with
  | some s => if s = "" then d else s
  | none => d

/-- The values `current()` would contribute to the `originals` list of
`_options` (core.py lines 279-284) if the injection could succeed: a
`ViewportOptions` instance, a `CameraOptions` instance, or Python `None`
(because `DisplayOptions.current`, options.py lines 139-152, builds its
snapshot but falls off the end without a `return`).  With the staged
`_inject` (see `injectError`) the `current` injections raise before any
append, so the list in fact always stays empty. -/
inductive Snapshot where
  | vp (o : ViewportOptions)
  | cam (o : CameraOptions)
  | pyNone
deriving DecidableEq, Repr

/-- `type(original).__name__`, used in the warning message of `_options`
(core.py lines 292-294). -/
def Snapshot.className : Snapshot → String
  | .vp _ => "ViewportOptions"
  | .cam _ => "CameraOptions"
  | .pyNone => "NoneType"

/-- An element of the `default_options` / `options` arguments of `capture`.
Python lists are heterogeneous: a caller can put option-set *instances* or
the option-set *class objects* themselves in `options`; both occur in the
membership test `type(opt) in options` (core.py line 102). -/
inductive OptValue where
  | vpInst (o : ViewportOptions)
  | dispInst (o : DisplayOptions)
  | camInst (o : CameraOptions)
  | vpCls
  | dispCls
  | camCls
deriving DecidableEq, Repr

/-- The membership test `type(opt) in options` (core.py line 102).
`type(opt)` of an instance is its class object, and Python's `in` compares
it with each list element: it equals an element only when the element *is*
that class object (class objects never compare equal to instances, and
`type` of a class object — the metaclass — never occurs in the list). -/
def typeInList (opt : OptValue) (l : List OptValue) : Bool :=
  l.any fun u =>
    match opt, u with
    | .vpInst _, .vpCls => true
    | .dispInst _, .dispCls => true
    | .camInst _, .camCls => true
    | _, _ => false

/-- The `context_options` list built by `capture` (core.py lines 98-110):
each default is kept unless `options` is truthy and `type(opt) in options`;
then, if `options` is truthy, every caller option is appended. -/
def contextOptions (default_options : List OptValue) (options : Option (List OptValue)) :
    List OptValue :=
  let optsTruthy : Bool :=
    match options with
    | some l => !l.isEmpty
    | none => false
  let base := default_options.filter fun opt =>
    !(optsTruthy && typeInList opt (options.getD []))
  base ++ (if optsTruthy then options.getD [] else [])

/-- The failure of `_inject(fn, kwargs)` (core.py lines 260-267).  The
function evaluates `argspec.kwargs` to collect keyword arguments, but
`inspect.getargspec` returns an `ArgSpec` namedtuple whose fields are
`args`, `varargs`, `keywords` and `defaults` — it has no `kwargs` field —
so every `_inject` call raises `AttributeError` before `fn` is ever
invoked.  (Python quotes the two names in its message; the model spells
the message without the quote characters.) -/
def injectError : PyErr :=
  .attributeError "ArgSpec object has no attribute kwargs"

/-- `original = _inject(option.current, kwargs)` (core.py line 283): the
injection raises `AttributeError` while building its keyword dictionary,
before the variant's `current` method runs — for every option value.  No
snapshot is produced and no host state is read or mutated. -/
def optCurrent (_opt : OptValue) (_panel _camera : String) (h : Host) :
    Except PyErr Snapshot × Host × List Event :=
  (.error injectError, h, [])

/-- `_inject(option.set, kwargs)` (core.py line 285): raises the same
`AttributeError` before the variant's `set` method runs, so no option set
is ever applied to the host.  (Unreachable from `capture`: the `current`
injection at line 283 raises first.) -/
def optSet (_opt : OptValue) (_panel _camera : String) (h : Host) :
    Except PyErr Unit × Host × List Event :=
  (.error injectError, h, [])

/-- The try-body of `_options` (core.py lines 280-285): for each option,
snapshot with `current()`, append the snapshot to `originals`, then apply
with `set()`.  Returns the accumulated `originals` (handed to the `finally`
block even when a step raises), the outcome, the host, and the trace.
With the staged `_inject`, the first iteration's `current` call raises, so
on any non-empty option list the result is the empty `originals` list and
`injectError`. -/
def applyOptions (opts : List OptValue) (panel camera : String) (h : Host) :
    List Snapshot × Except PyErr Unit × Host × List Event :=
  match opts with
  | [] => ([], .ok (), h, [])
  | o :: rest =>
    match optCurrent o panel camera h with
    | (.error e, h1, ev1) => ([], .error e, h1, ev1)
    | (.ok sn, h1, ev1) =>
      match optSet o panel camera h1 with
      | (.error e, h2, ev2) => ([sn], .error e, h2, ev1 ++ ev2)
      | (.ok _, h2, ev2) =>
        let r := applyOptions rest panel camera h2
        (sn :: r.1, r.2.1, r.2.2.1, ev1 ++ ev2 ++ r.2.2.2)

/-- `_inject(original.set, kwargs)` for one snapshot of the `finally` loop
(core.py line 290).  For a `None` snapshot — the value
`DisplayOptions.current` would return, its body lacking a `return` — the
attribute access `original.set` raises `AttributeError` already; for the
other snapshots the injection raises `AttributeError` before `set` runs.
Neither failure is a `RuntimeError`.  (From `capture` the loop never
receives a non-empty `originals` list, since the `current` injections
raise before any append.) -/
def snapshotSet (s : Snapshot) (_panel _camera : String) (h : Host) :
    Except PyErr Unit × Host × List Event :=
  match s with
  | .pyNone => (.error (.attributeError "NoneType object has no attribute set"), h, [])
  | .vp _ => (.error injectError, h, [])
  | .cam _ => (.error injectError, h, [])

/-- The warning `_options` writes to stderr when re-applying a snapshot
raises `RuntimeError` (core.py lines 292-294). -/
def revertWarning (s : Snapshot) (m : String) : String :=
  "Reverting to original " ++ s.className ++ " failed: " ++ m

/-- The `finally` loop of `_options` (core.py lines 288-294): re-apply each
snapshot in order; `except RuntimeError` catches only the host's
`RuntimeError`, writing a warning to stderr and continuing; any other
exception aborts the loop and propagates.  Both failure modes of
`snapshotSet` are `AttributeError`s, so the catch branch can never fire. -/
def restoreOptions (originals : List Snapshot) (panel camera : String) (h : Host) :
    Except PyErr Unit × Host × List Event :=
  match originals with
  | [] => (.ok (), h, [])
  | s :: rest =>
    match snapshotSet s panel camera h with
    | (.ok _, h1, ev1) =>
      let r := restoreOptions rest panel camera h1
      (r.1, r.2.1, ev1 ++ r.2.2)
    | (.error (.runtimeError m), h1, ev1) =>
      let r := restoreOptions rest panel camera h1
      (r.1, r.2.1, ev1 ++ Event.stderr (revertWarning s m) :: r.2.2)
    | (.error e, h1, ev1) => (.error e, h1, ev1)


/-- `_isolated_nodes(nodes, panel)` on entry (core.py lines 297-306): when
`nodes is not None`, enable isolation (`isolateSelect -state 1`, which
starts with an empty member set) and add each node; when `nodes` is `None`,
do nothing at all. -/
def isolatedNodes (nodes : Option (List String)) (panel : String) (h : Host) :
    Host × List Event :=
  match nodes with
  | none => (h, [])
  | some objs =>
    let h1 := { h with panelIsolate := true, panelIsolateMembers := [] }
    let h2 := objs.foldl
      (fun acc o => { acc with panelIsolateMembers := acc.panelIsolateMembers ++ [o] }) h1
    (h2, Event.isolateState panel true :: objs.map fun o => Event.isolateAdd panel o)

/-- The keyword arguments of `capture` (core.py lines 9-28), with the
source's defaults.  `maintain_aspect` is the source's
`maintain_aspect_ratio`. -/
structure CaptureArgs where
  camera : Option String := none
  width : Option ℚ := none
  height : Option ℚ := none
  filename : Option String := none
  start_frame : Option ℚ := none
  end_frame : Option ℚ := none
  frame : Option PyVal := none
  format : String := "qt"
  compression : String := "h264"
  off_screen : Bool := false
  viewer : Bool := true
  isolate : Option (List String) := none
  maintain_aspect : Bool := true
  overwrite : Bool := false
  raw_frame_numbers : Bool := false
  default_options : List OptValue := [.vpInst {}, .dispInst {}, .camInst {}]
  options : Option (List OptValue) := none
  complete_filename : Option String := none
deriving Repr

/-- The parameters `capture` resolves before opening the panel
(core.py lines 83-96). -/
structure Resolved where
  camera : String
  width : ℚ
  height : ℚ
  startFrame : ℚ
  endFrame : ℚ
deriving DecidableEq, Repr

/-- Parameter resolution of `capture` (core.py lines 83-96): apply `or`
defaulting to camera, check the camera exists (raising the module's
`RuntimeError` otherwise), default width/height from the scene resolution,
recompute height from the device aspect ratio when requested, and default
the frame range from the playback range. -/
def captureResolve (args : CaptureArgs) (h : Host) : Except PyErr Resolved :=
  let camera := pyOrS args.camera "persp"
  if camera ∈ h.existingObjects then
    let width := pyOrQ args.width h.defaultResolutionWidth
    let height := pyOrQ args.height h.defaultResolutionHeight
    let height := if args.maintain_aspect then width / h.deviceAspect else height
    .ok { camera := camera, width := width, height := height,
          startFrame := pyOrQ args.start_frame h.playbackMin,
          endFrame := pyOrQ args.end_frame h.playbackMax }
  else
    .error (.runtimeError ("Camera does not exist: " ++ camera))

/-- The name of the transient panel (`cmds.modelPanel` label
`'CapturePanel'`, core.py line 235; the model uses the label as the
panel's identifier). -/
def panelName : String := "CapturePanel"

/-- Teardown of `_independent_panel` (core.py lines 252-257): the panel and
window are deleted on every exit path, taking the panel-local editor state
and isolation filter with them. -/
def panelClose (h : Host) : Host :=
  { h with panelFlags := none, panelIsolate := false, panelIsolateMembers := [] }

/-- The body of `capture` after parameter resolution (core.py lines 98-148):
build `context_options` and the wrapped playblast kwargs, open the panel
(sized `width+10 × height+10`), look through the camera, apply the option
sets, apply isolation, invoke `playblast`, and on every exit path run the
`_options` restore loop and tear the panel down.  An exception raised by the
restore loop replaces the in-flight result (Python `finally` semantics). -/
def captureGo (r : Resolved) (default_options : List OptValue)
    (options : Option (List OptValue)) (isolate : Option (List String))
    (frame : Option PyVal) (complete_filename : Option String)
    (format compression : String) (off_screen viewer overwrite raw_frame_numbers : Bool)
    (filename : Option String) (h : Host) :
    Except PyErr String × Host × List Event :=
  let ctx := contextOptions default_options options
  let frameKw : Option PyVal :=
    match frame with
    | some v => if v.truthy then some v else none
    | none => none
  let completeKw : Option String :=
    match complete_filename with
    | some s => if s ≠ "" then some s else none
    | none => none
  let h1 := { h with panelFlags := some h.freshPanelFlags,
                     panelIsolate := false, panelIsolateMembers := [] }
  let evOpen : List Event :=
    [.windowCreate (r.width + 10) (r.height + 10), .panelCreate, .showWindow,
     .lookThru panelName r.camera, .setFocus panelName]
  let ap := applyOptions ctx panelName r.camera h1
  match ap with
  | (originals, .error e, h2, evA) =>
    let rr := restoreOptions originals panelName r.camera h2
    let res : Except PyErr String :=
      match rr.1 with
      | .ok _ => .error e
      | .error e2 => .error e2
    (res, panelClose rr.2.1,
     evOpen ++ evA ++ rr.2.2 ++ [.panelDelete panelName, .windowDelete])
  | (originals, .ok _, h2, evA) =>
    let iso := isolatedNodes isolate panelName h2
    let pb : PlayblastCall :=
      { compression := compression, format := format, viewer := viewer,
        startTime := r.startFrame, endTime := r.endFrame,
        offScreen := off_screen, forceOverwrite := overwrite,
        filename := filename, widthHeight := (r.width, r.height),
        rawFrameNumbers := raw_frame_numbers, frameArg := frameKw,
        completeFilename := completeKw }
    let rr := restoreOptions originals panelName r.camera iso.1
    let res : Except PyErr String :=
      match rr.1 with
      | .ok _ => .ok h.playblastReturn
      | .error e2 => .error e2
    (res, panelClose rr.2.1,
     evOpen ++ evA ++ iso.2 ++ [.playblast pb] ++ rr.2.2 ++
       [.panelDelete panelName, .windowDelete])

/-- `capture` (core.py lines 9-148): resolve parameters — raising before any
host mutation or resource acquisition when the camera is unknown — then run
the panel-scoped body. -/
def capture (args : CaptureArgs) (h : Host) :
    Except PyErr String × Host × List Event :=
  match captureResolve args h with
  | .error e => (.error e, h, [])
  | .ok r =>
    captureGo r args.default_options args.options args.isolate args.frame
      args.complete_filename args.format args.compression args.off_screen
      args.viewer args.overwrite args.raw_frame_numbers args.filename h

/-- The keyword arguments of `snap` (core.py lines 151-191): the `capture`
keywords plus the frame to snap, the four overridden defaults, and
`clipboard`.  A `none` field means the keyword was not passed. -/
structure SnapArgs where
  base : CaptureArgs := {}
  frame : Option PyVal := none
  format : Option String := none
  compression : Option String := none
  viewer : Option Bool := none
  raw_frame_numbers : Option Bool := none
  clipboard : Bool := false
deriving Repr

/-- `kwargs.pop('frame', cmds.currentTime(q=1))` (core.py line 171): the
explicit frame argument if given, otherwise the host's current frame. -/
def snapResolvedFrame (args : SnapArgs) (h : Host) : PyVal :=
  args.frame.getD (.num h.currentTime)

/-- The `capture` argument record `snap` builds for a scalar resolved frame
`f` (core.py lines 172-188): `start_frame`, `end_frame` and `frame` are all
forced to `f`, and the defaults of `format`, `compression`, `viewer` and
`raw_frame_numbers` are overridden. -/
def snapCaptureArgs (args : SnapArgs) (f : ℚ) : CaptureArgs :=
  { args.base with
    start_frame := some f, end_frame := some f, frame := some (.num f),
    format := args.format.getD "image",
    compression := args.compression.getD "png",
    viewer := args.viewer.getD false,
    raw_frame_numbers := args.raw_frame_numbers.getD true }

/-- Python `int(frame)` on a rational: truncation toward zero. -/
def pyInt (q : ℚ) : ℤ :=
  q.num.tdiv q.den

/-- Python `str.zfill(width)`: left-pad with `'0'` up to `width`, inserting
the padding after a leading sign. -/
def zfill (s : String) (width : ℕ) : String :=
  if width ≤ s.length then s
  else
    let pad := List.replicate (width - s.length) '0'
    match s.data with
    | [] => String.mk pad
    | c :: rest =>
      if c = '-' ∨ c = '+' then String.mk (c :: (pad ++ rest))
      else String.mk (pad ++ (c :: rest))

/-- One left-to-right pass of `re.sub("#+", repl, ·)` over a character list:
`n` counts the `'#'` characters read immediately before the current
position.  A maximal (greedy, leftmost) run of `k` consecutive `'#'` is
replaced by `repl k`; every other character is kept. -/
def subHashRun (rep : ℕ → String) (l : List Char) (n : ℕ) : List Char :=
  match l, n with
  | [], 0 => []
  | [], k + 1 => (rep (k + 1)).data
  | c :: cs, n =>
    if c = '#' then subHashRun rep cs (n + 1)
    else
      match n with
      | 0 => c :: subHashRun rep cs 0
      | k + 1 => (rep (k + 1)).data ++ c :: subHashRun rep cs 0

/-- The substitution `snap` applies to the returned path (core.py lines
196-198, `re.sub("#+", replace, output)` with
`replace = lambda m: str(int(frame)).zfill(len(m.group()))`): every maximal
run of `#` is replaced by `str(int(frame))` zero-filled to the run's
length. -/
def snapSubstitute (f : ℚ) (s : String) : String :=
  String.mk (subHashRun (fun n => zfill (toString (pyInt f)) n) s.data 0)

/-- `snap` (core.py lines 151-204): resolve the frame, reject non-scalar
frames with `TypeError` before any capture, delegate to `capture` with the
forced frame range and overridden defaults, then substitute `#` padding in
the returned path and optionally copy the image to the clipboard. -/
def snap (args : SnapArgs) (h : Host) :
    Except PyErr String × Host × List Event :=
  match snapResolvedFrame args h with
  | .tup _ =>
    (.error (.typeError
      "frame must be a single frame (integer or float). Use `capture()` for sequences."), h, [])
  | .num f =>
    match capture (snapCaptureArgs args f) h with
    | (.error e, h2, ev) => (.error e, h2, ev)
    | (.ok output, h2, ev) =>
      let output2 := snapSubstitute f output
      (.ok output2, h2,
       ev ++ (if args.clipboard then [Event.clipboardCopy output2] else []))

/-- The playblast invocations recorded in a trace. -/
def playblastsOf (l : List Event) : List PlayblastCall :=
  l.filterMap fun e =>
    match e with
    | .playblast c => some c
    | _ => none

/-- Whether an event is a write to the error stream. -/
def Event.isStderr : Event → Bool
  | .stderr _ => true
  | _ => false

/-- Whether an event is an isolation-filter call (`isolateSelect`). -/
def Event.isIsolate : Event → Bool
  | .isolateState _ _ => true
  | .isolateAdd _ _ => true
  | _ => false

/-- Whether an event applies option-set state to the host (`modelEditor`
edits, display colors/prefs, camera `setAttr`). -/
def Event.isOptionMutation : Event → Bool
  | .editorReset _ => true
  | .editorApply _ _ => true
  | .displayColorSet _ _ => true
  | .displayPrefSet _ _ => true
  | .setAttr _ _ _ => true
  | _ => false

/-- A small concrete scene used for concrete evaluations: one camera
`persp` whose display attributes are all on, a display state different
from the `DisplayOptions` defaults, resolution 4×3, device aspect 2,
playback range [1, 24], current frame 5. -/
def scene1 : Host :=
  { existingObjects := ["persp"],
    defaultResolutionWidth := 4, defaultResolutionHeight := 3,
    deviceAspect := 2, playbackMin := 1, playbackMax := 24, currentTime := 5,
    display := { background := (0, 0, 0), backgroundTop := (0, 0, 0),
                 backgroundBottom := (0, 0, 0), displayGradient := false },
    cameras := [("persp", { displayGateMask := true, displayResolution := true,
                            displayFilmGate := true })],
    playblastReturn := "out.mov" }

deriving instance DecidableEq for Except

/-! ## Theorems -/

/-- C1: the scoped-apply pattern never runs.  On a default `capture()`
call in `scene1`, the very first `current()` injection raises
`AttributeError` (`_inject` evaluates the nonexistent `argspec.kwargs`,
core.py line 266), so no option set is ever snapshotted, applied or
re-applied; the playblast never runs; the call fails with that
`AttributeError`; and the host state — display colors/prefs, camera
attributes, everything — is exactly its pre-call value.  The claimed
invariant holds only vacuously (nothing is mutated), and the
snapshot/re-apply mechanism the claim describes never executes. -/
theorem c1_scoped_apply_never_runs :
    (capture {} scene1).1 = Except.error injectError
    ∧ (capture {} scene1).2.1 = scene1
    ∧ playblastsOf (capture {} scene1).2.2 = []
    ∧ (capture {} scene1).2.2.filter Event.isOptionMutation = [] := by
  refine ⟨by decide, by rfl, by decide, by decide⟩

/-- C2: the restoration error handling is dead code.  On a default
`capture()` call in `scene1` the `AttributeError` from the first
`current()` injection propagates to the caller and no warning is ever
written to the error stream; the `originals` list produced by the apply
loop is empty, so the `finally` loop has nothing to re-apply and restores
nothing — no failure while re-applying an option-set snapshot can ever be
caught individually, because re-applying never happens. -/
theorem c2_restore_handling_dead_code :
    (capture {} scene1).1 = Except.error injectError
    ∧ (capture {} scene1).2.2.filter Event.isStderr = []
    ∧ (applyOptions [OptValue.vpInst {}, OptValue.dispInst {}, OptValue.camInst {}]
        panelName "persp" scene1).1 = []
    ∧ restoreOptions [] panelName "persp" scene1 = (Except.ok (), scene1, []) := by
  refine ⟨by decide, by decide, by rfl, by rfl⟩

/-- C3: the merge of caller option sets over the defaults does not happen
for option-set *instances*.  With a caller-supplied `ViewportOptions`
instance in `options`, the default `ViewportOptions` is **not** excluded
from `context_options` (the test `type(opt) in options` compares the class
object against the caller's instances, which are never equal), so both the
default and the caller's instance are applied.  The default of a type is
excluded only when the caller puts the class object itself in `options`. -/
theorem c3_default_not_excluded :
    contextOptions [.vpInst {}, .dispInst {}, .camInst {}]
        (some [OptValue.vpInst { grid := true }]) =
      [.vpInst {}, .dispInst {}, .camInst {}, .vpInst { grid := true }]
    ∧ OptValue.vpInst {} ∈
        contextOptions [.vpInst {}, .dispInst {}, .camInst {}]
          (some [OptValue.vpInst { grid := true }])
    ∧ contextOptions [.vpInst {}, .dispInst {}, .camInst {}] (some [OptValue.vpCls]) =
        [.dispInst {}, .camInst {}, OptValue.vpCls] := by
  refine ⟨by decide, by decide, by decide⟩

/-- C4 counterexample: `snap` with explicit `frame=0` does not produce
`start_frame == end_frame == 0`.  The resolved frame is `0`, yet the
playblast is invoked with the scene playback range `[1, 24]`, because
`capture` treats the falsy `0` as "not given" (`start_frame or ...`,
core.py lines 95-96).  (The run uses `default_options=[]` so that the
capture itself succeeds.) -/
theorem c4_snap_frame_zero_uses_playback_range :
    snapResolvedFrame { frame := some (.num 0), base := { default_options := [] } } scene1
      = PyVal.num 0
    ∧ (playblastsOf
        (snap { frame := some (.num 0), base := { default_options := [] } } scene1).2.2).map
          (fun c => (c.startTime, c.endTime)) = [(1, 24)]
    ∧ (1 : ℚ) ≠ 0 := by
  refine ⟨by decide, by decide, by decide⟩

/-- C4 amended: `snap` resolves the frame to the explicit argument if
given, otherwise the host's current frame; and for every **nonzero**
resolved frame `f` it invokes `capture` with
`start_frame = end_frame = f`, which resolve to effective start/end frame
`f`.  (For resolved frame `0`, truthiness defaulting in `capture` replaces
them with the scene playback range instead.) -/
theorem c4_snap_forces_frame_range :
    (∀ (args : SnapArgs) (h : Host), args.frame = none →
      snapResolvedFrame args h = PyVal.num h.currentTime)
    ∧ (∀ (args : SnapArgs) (h : Host) (f : ℚ) (r : Resolved),
        f ≠ 0 →
        captureResolve (snapCaptureArgs args f) h = Except.ok r →
        (snapCaptureArgs args f).start_frame = some f
        ∧ (snapCaptureArgs args f).end_frame = some f
        ∧ r.startFrame = f ∧ r.endFrame = f) := by
  constructor
  · intro args h hf
    simp [snapResolvedFrame, hf]
  · intro args h f r hf hres
    refine ⟨rfl, rfl, ?_⟩
    simp only [captureResolve] at hres
    split at hres
    · cases hres
      constructor
      · show pyOrQ (snapCaptureArgs args f).start_frame h.playbackMin = f
        simp [snapCaptureArgs, pyOrQ, hf]
      · show pyOrQ (snapCaptureArgs args f).end_frame h.playbackMax = f
        simp [snapCaptureArgs, pyOrQ, hf]
    · cases hres

/-- Witness for the amended C4 at frame 7 in `scene1`. -/
theorem c4_snap_forces_frame_range_witness :
    (snapCaptureArgs { frame := some (.num 7), base := { maintain_aspect := false } } 7).start_frame
      = some 7
    ∧ (snapCaptureArgs { frame := some (.num 7), base := { maintain_aspect := false } } 7).end_frame
      = some 7
    ∧ ({ camera := "persp", width := 4, height := 3,
         startFrame := 7, endFrame := 7 } : Resolved).startFrame = 7
    ∧ ({ camera := "persp", width := 4, height := 3,
         startFrame := 7, endFrame := 7 } : Resolved).endFrame = 7 :=
  c4_snap_forces_frame_range.2
    { frame := some (.num 7), base := { maintain_aspect := false } } scene1 7
    { camera := "persp", width := 4, height := 3, startFrame := 7, endFrame := 7 }
    (by decide) rfl

/-- Prefix of non-`#` characters passes through the substitution pass
unchanged (no pending run). -/
theorem subHashRun_no_hash_prefix (rep : ℕ → String) (a b : List Char)
    (ha : '#' ∉ a) :
    subHashRun rep (a ++ b) 0 = a ++ subHashRun rep b 0 := by
  induction a with
  | nil => rfl
  | cons c a ih =>
    have hc : ¬c = '#' := fun hc => ha (hc ▸ List.mem_cons_self c a)
    have ha2 : '#' ∉ a := fun hm => ha (List.mem_cons_of_mem c hm)
    simp [subHashRun, hc, ih ha2]

/-- Reading `m` consecutive `#` characters adds `m` to the pending run. -/
theorem subHashRun_replicate (rep : ℕ → String) (m : ℕ) (b : List Char) (k : ℕ) :
    subHashRun rep (List.replicate m '#' ++ b) k = subHashRun rep b (k + m) := by
  induction m generalizing k with
  | zero => rfl
  | succ m ih =>
    show subHashRun rep ('#' :: (List.replicate m '#' ++ b)) k = _
    have hk : k + 1 + m = k + (m + 1) := by omega
    simp [subHashRun, ih (k + 1), hk]

/-- A pending run of `k + 1` hashes is flushed as `rep (k + 1)` as soon as
the run is maximal (next character, if any, is not `#`). -/
theorem subHashRun_flush (rep : ℕ → String) (b : List Char) (k : ℕ)
    (hb : b.head? ≠ some '#') :
    subHashRun rep b (k + 1) = (rep (k + 1)).data ++ subHashRun rep b 0 := by
  match b with
  | [] => simp [subHashRun]
  | c :: cs =>
    have hc : ¬c = '#' := by
      intro hc
      exact hb (by simp [hc])
    simp [subHashRun, hc]

/-- C5: frame-padding substitution.  For every frame `f` and every path
decomposed as `a ++ ("#" * n) ++ b` where `a` contains no `#` and `b` does
not start with `#` (so the run of `n` hashes is maximal), the substitution
`snap` applies to its returned path replaces the run by `str(int(f))`
zero-filled to `n` digits, keeps the prefix, and continues with the rest of
the path; so each maximal run of `N` hashes becomes the frame number
zero-padded to `N` digits. -/
theorem c5_hash_padding (f : ℚ) (a b : List Char) (n : ℕ)
    (ha : '#' ∉ a) (hn : 0 < n) (hb : b.head? ≠ some '#') :
    snapSubstitute f (String.mk (a ++ List.replicate n '#' ++ b)) =
      String.mk (a ++ (zfill (toString (pyInt f)) n).data
        ++ (snapSubstitute f (String.mk b)).data) := by
  match n, hn with
  | k + 1, _ =>
    show String.mk (subHashRun _ (a ++ List.replicate (k + 1) '#' ++ b) 0) = _
    rw [List.append_assoc, subHashRun_no_hash_prefix _ a _ ha,
      subHashRun_replicate, Nat.zero_add, subHashRun_flush _ b k hb]
    simp [snapSubstitute, List.append_assoc]

/-- Witness for C5: frame 7 with token `####` inside a path yields `0007`
(also checked against the fully evaluated string). -/
theorem c5_hash_padding_witness :
    snapSubstitute 7 (String.mk ("shot_".data ++ List.replicate 4 '#' ++ "_v2.png".data)) =
      String.mk ("shot_".data ++ (zfill (toString (pyInt 7)) 4).data
        ++ (snapSubstitute 7 (String.mk "_v2.png".data)).data)
    ∧ snapSubstitute 7 "shot_####_v2.png" = "shot_0007_v2.png" :=
  ⟨c5_hash_padding 7 "shot_".data "_v2.png".data 4 (by decide) (by decide) (by decide),
   by decide⟩

/-- C6: unknown camera.  Whenever the resolved camera (the argument, or
`"persp"` when the argument is absent or empty) does not exist in the
scene, `capture` raises the fatal `RuntimeError` immediately: the host
state is returned unchanged and the trace is empty — no host state was
mutated and no panel or window was acquired. -/
theorem c6_unknown_camera_fatal_before_mutation
    (args : CaptureArgs) (h : Host)
    (hc : pyOrS args.camera "persp" ∉ h.existingObjects) :
    capture args h =
      (Except.error (PyErr.runtimeError
        ("Camera does not exist: " ++ pyOrS args.camera "persp")), h, []) := by
  simp [capture, captureResolve, hc]

/-- Witness for C6: default arguments in an empty scene. -/
theorem c6_unknown_camera_fatal_witness :
    pyOrS ({} : CaptureArgs).camera "persp" ∉ ({} : Host).existingObjects
    ∧ capture {} {} =
        (Except.error (PyErr.runtimeError
          ("Camera does not exist: " ++ pyOrS ({} : CaptureArgs).camera "persp")),
         ({} : Host), []) :=
  ⟨by decide, c6_unknown_camera_fatal_before_mutation {} {} (by decide)⟩

/-- C7: aspect-ratio preservation.  Whenever `capture` resolves its
parameters with `maintain_aspect_ratio` enabled, the resulting height is
the effective width divided by the scene's device aspect ratio, where the
effective width is the `width` argument defaulted through truthiness to the
scene resolution width. -/
theorem c7_aspect_preserved
    (args : CaptureArgs) (h : Host) (r : Resolved)
    (hm : args.maintain_aspect = true)
    (hres : captureResolve args h = Except.ok r) :
    r.height = r.width / h.deviceAspect
    ∧ r.width = pyOrQ args.width h.defaultResolutionWidth := by
  simp only [captureResolve, hm, if_true] at hres
  split at hres
  · cases hres
    exact ⟨rfl, rfl⟩
  · cases hres

/-- Witness for C7: default arguments in `scene1` (width 4, aspect 2). -/
theorem c7_aspect_preserved_witness :
    ({ camera := "persp", width := 4, height := 4 / 2,
       startFrame := 1, endFrame := 24 } : Resolved).height =
      ({ camera := "persp", width := 4, height := 4 / 2,
         startFrame := 1, endFrame := 24 } : Resolved).width / scene1.deviceAspect
    ∧ ({ camera := "persp", width := 4, height := 4 / 2,
         startFrame := 1, endFrame := 24 } : Resolved).width =
        pyOrQ ({} : CaptureArgs).width scene1.defaultResolutionWidth :=
  c7_aspect_preserved {} scene1
    { camera := "persp", width := 4, height := 4 / 2, startFrame := 1, endFrame := 24 }
    rfl rfl

/-- C8: non-scalar frame.  Whenever the frame argument of `snap` is a
tuple/list rather than a single number, `snap` raises the fatal `TypeError`
before invoking `capture`: the host is returned unchanged and the trace is
empty — no capture was performed and no output was produced. -/
theorem c8_nonscalar_frame_fatal
    (args : SnapArgs) (h : Host) (l : List ℚ)
    (hf : args.frame = some (PyVal.tup l)) :
    snap args h =
      (Except.error (PyErr.typeError
        "frame must be a single frame (integer or float). Use `capture()` for sequences."),
       h, []) := by
  simp [snap, snapResolvedFrame, hf]

/-- Witness for C8: `frame=(1, 2)` in `scene1`. -/
theorem c8_nonscalar_frame_fatal_witness :
    ({ frame := some (PyVal.tup [1, 2]) } : SnapArgs).frame = some (PyVal.tup [1, 2])
    ∧ snap { frame := some (PyVal.tup [1, 2]) } scene1 =
        (Except.error (PyErr.typeError
          "frame must be a single frame (integer or float). Use `capture()` for sequences."),
         scene1, []) :=
  ⟨rfl, c8_nonscalar_frame_fatal { frame := some (PyVal.tup [1, 2]) } scene1 [1, 2] rfl⟩

/-- `capture` depends on its argument record only through `captureResolve`
and the explicitly listed remaining fields. -/
theorem capture_args_eq (a1 a2 : CaptureArgs) (h : Host)
    (hres : captureResolve a1 h = captureResolve a2 h)
    (h1 : a1.default_options = a2.default_options)
    (h2 : a1.options = a2.options)
    (h3 : a1.isolate = a2.isolate)
    (h4 : a1.frame = a2.frame)
    (h5 : a1.complete_filename = a2.complete_filename)
    (h6 : a1.format = a2.format)
    (h7 : a1.compression = a2.compression)
    (h8 : a1.off_screen = a2.off_screen)
    (h9 : a1.viewer = a2.viewer)
    (h10 : a1.overwrite = a2.overwrite)
    (h11 : a1.raw_frame_numbers = a2.raw_frame_numbers)
    (h12 : a1.filename = a2.filename) :
    capture a1 h = capture a2 h := by
  unfold capture
  rw [hres, h1, h2, h3, h4, h5, h6, h7, h8, h9, h10, h11, h12]

/-- C9: falsy arguments behave exactly as omitted ones.  For every call to
`capture`, passing `0` for `width`, `height`, `start_frame` or `end_frame`,
or the empty string for `camera`, produces exactly the same outcome, final
host state and trace as omitting that argument (the value is replaced by
the scene default or the camera `"persp"`), because defaulting uses
truthiness (`x or default`) rather than an is-None test. -/
theorem c9_falsy_args_equal_omitted (args : CaptureArgs) (h : Host) :
    capture { args with width := some 0 } h = capture { args with width := none } h
    ∧ capture { args with height := some 0 } h = capture { args with height := none } h
    ∧ capture { args with start_frame := some 0 } h
        = capture { args with start_frame := none } h
    ∧ capture { args with end_frame := some 0 } h
        = capture { args with end_frame := none } h
    ∧ capture { args with camera := some "" } h
        = capture { args with camera := none } h := by
  refine ⟨?_, ?_, ?_, ?_, ?_⟩ <;>
    exact capture_args_eq _ _ h (by simp [captureResolve, pyOrQ, pyOrS])
      rfl rfl rfl rfl rfl rfl rfl rfl rfl rfl rfl rfl

/-- Folding the `isolateSelect -addDagObject` loop appends the nodes to the
panel's member set. -/
theorem isolate_foldl_members (objs : List String) (acc : Host) :
    objs.foldl
      (fun a o => { a with panelIsolateMembers := a.panelIsolateMembers ++ [o] }) acc
      = { acc with panelIsolateMembers := acc.panelIsolateMembers ++ objs } := by
  induction objs generalizing acc with
  | nil => simp
  | cons o os ih =>
    show os.foldl _ { acc with panelIsolateMembers := acc.panelIsolateMembers ++ [o] } = _
    rw [ih]
    simp

/-- Isolation-add events pass the isolation filter. -/
theorem filter_isolate_adds (panel : String) (l : List String) :
    (l.map fun o => Event.isolateAdd panel o).filter Event.isIsolate
      = l.map fun o => Event.isolateAdd panel o := by
  induction l with
  | nil => rfl
  | cons o os ih => simp [Event.isIsolate, ih]

/-- C10: isolation is enabled exactly when the `isolate` argument is not
`None`.  (1) `None`: `_isolated_nodes` touches nothing and makes no
isolation call.  (2) Any list, including the empty one: the isolation
filter is enabled (`isolateSelect -state 1`) with exactly the listed
members — zero members for `[]` — and the trace is the state call followed
by one add per node.  (3) In a full `capture` call (concrete succeeding
configuration), the isolation events of the trace are exactly those, and
are absent for `None`. -/
theorem c10_isolate_iff_not_none :
    (∀ (panel : String) (h : Host), isolatedNodes none panel h = (h, []))
    ∧ (∀ (panel : String) (h : Host) (l : List String),
        (isolatedNodes (some l) panel h).1.panelIsolate = true
        ∧ (isolatedNodes (some l) panel h).1.panelIsolateMembers = l
        ∧ (isolatedNodes (some l) panel h).2
            = Event.isolateState panel true :: l.map fun o => Event.isolateAdd panel o)
    ∧ (∀ iso : Option (List String),
        (capture { default_options := [], isolate := iso } scene1).2.2.filter Event.isIsolate
          = match iso with
            | none => []
            | some l => Event.isolateState panelName true
                :: l.map fun o => Event.isolateAdd panelName o) := by
  refine ⟨fun panel h => rfl, ?_, ?_⟩
  · intro panel h l
    refine ⟨?_, ?_, rfl⟩
    · show (Host.panelIsolate (l.foldl _ _)) = true
      rw [isolate_foldl_members]
    · show (Host.panelIsolateMembers (l.foldl _ _)) = l
      rw [isolate_foldl_members]
      rfl
  · intro iso
    match iso with
    | none => decide
    | some l =>
      show (capture { default_options := [], isolate := some l } scene1).2.2.filter
          Event.isIsolate = _
      simp +decide [capture, captureResolve, captureGo, contextOptions, typeInList,
        applyOptions, restoreOptions, isolatedNodes, panelClose, pyOrS, pyOrQ,
        panelName, scene1, Event.isIsolate, List.filter_append, filter_isolate_adds]

end MayaCapture

